import Mathlib

/-!
Shallow embedding of `src/openMVG/matching/matcher_hnsw.hpp` (class
`HNSWMatcher<Scalar, Metric, MetricType>`), the approximate
nearest-neighbour matcher facade of openMVG, together with a model of the
parts of the external hnswlib graph library that the wrapper observes
(`searchKnn`, `setEf`), reconstructed from the specification.

The facade state is the triple of private members
`dimension_`, `HNSW_metric_`, `HNSW_matcher_`; the three public operations
`Build`, `SearchNeighbour` and `SearchNeighbours` are translated line by
line, with C++ out-parameters turned into explicit in/out values.
-/

namespace HNSW

/-- The metric selector template parameter (`enum HNSWMETRIC`). -/
inductive HNSWMETRIC where
  | L2_HNSW
  | L1_HNSW
  | HAMMING_HNSW
  deriving DecidableEq, Repr

/-- The run-time type of `Metric::ResultType` that `Build` inspects with
`typeid` (`int`, `float` or `unsigned int`). -/
inductive DistType where
  | dtInt
  | dtFloat
  | dtUInt
  deriving DecidableEq, Repr

/-- The pair of template arguments that fixes one instantiation of
`HNSWMatcher`: the metric kind and the distance result type. -/
structure Config where
  metricType : HNSWMETRIC
  distType : DistType
  deriving DecidableEq, Repr

/-- The metric/representation combinations that the `switch` in `Build`
accepts: L1 over `int`, L2 over `int` or `float`, Hamming over
`unsigned int`; every other combination prints an error and returns
`false`. -/
def metricSupported : HNSWMETRIC → DistType → Bool
  | .L1_HNSW, .dtInt => true
  | .L1_HNSW, _ => false
  | .L2_HNSW, .dtInt => true
  | .L2_HNSW, .dtFloat => true
  | .L2_HNSW, _ => false
  | .HAMMING_HNSW, .dtUInt => true
  | .HAMMING_HNSW, _ => false

/-- One descriptor: a fixed-length vector of scalar components, modelled
over the integers (float descriptors are outside the decidable fragment;
no claim depends on the scalar type). -/
abbrev Desc := List Int

/-- Squared L2 distance of two descriptors (`L2Space` / `L2SpaceI`). -/
def sqL2 (a b : Desc) : Nat :=
  (List.zipWith (fun x y => ((x - y) * (x - y)).toNat) a b).sum

/-- L1 distance of two descriptors (`custom_hnsw::L1SpaceInteger`). -/
def l1d (a b : Desc) : Nat :=
  (List.zipWith (fun x y => (x - y).natAbs) a b).sum

/-- Number of set bits of a natural number. -/
def popcount (n : Nat) : Nat := (Nat.bits n).count true

/-- Hamming distance over byte-packed descriptors
(`custom_hnsw::HammingSpace<uint8_t>`): popcount of the bytewise xor. -/
def hammingD (a b : Desc) : Nat :=
  (List.zipWith (fun x y => popcount (Nat.xor x.toNat y.toNat)) a b).sum

/-- The distance function the constructed metric space computes. -/
def distOf : HNSWMETRIC → Desc → Desc → Nat
  | .L2_HNSW => sqL2
  | .L1_HNSW => l1d
  | .HAMMING_HNSW => hammingD

/-- Model of a built `hnswlib::HierarchicalNSW` index: the inserted points
in dataset order (the label of point `i` is `i`) together with the current
`ef_` query-breadth parameter set by `setEf`.  The library constructor
initialises `ef_` to a fixed default; its value is irrelevant here because
every search entry point of the wrapper calls `setEf` first. -/
structure Index where
  points : List Desc
  metricType : HNSWMETRIC
  ef : Nat
  deriving DecidableEq, Repr

/-- The facade state: the private members of `HNSWMatcher`.
`dimension_` is an `int`; the two smart pointers become options
(`none` = null). The metric-space object is recorded as the configuration
and dimension it was constructed from. -/
structure HNSWMatcher where
  dimension_ : Int
  HNSW_metric_ : Option (Config × Int)
  HNSW_matcher_ : Option Index
  deriving DecidableEq, Repr

/-- `std::vector::resize(m)` with default element `d`: keeps the first `m`
existing elements and value-initialises the rest. -/
def resize {α : Type} (v : List α) (m : Nat) (d : α) : List α :=
  v.take m ++ List.replicate (m - v.length) d

/-- Row `i` of a flat dataset/query array of the given dimension
(the pointer arithmetic `dataset + dimension * vector_id`). -/
def querySlice (flat : List Int) (dim i : Nat) : Desc :=
  (flat.drop (dim * i)).take dim

/-- `HNSWMatcher::Build(dataset, nbRows, dimension)`.
Returns the new state and the `bool` result.
- `nbRows < 1`: both pointers are reset to null, `false`.
- otherwise `dimension_` is assigned, then the metric `switch` runs: on an
  unsupported metric/representation combination it returns `false` with the
  pointers untouched; on a supported one a fresh metric space and a fresh
  index holding all `nbRows` rows are installed and it returns `true`. -/
def Build (cfg : Config) (st : HNSWMatcher) (dataset : List Int)
    (nbRows : Int) (dimension : Int) : HNSWMatcher × Bool :=
  if nbRows < 1 then
    ({ st with HNSW_metric_ := none, HNSW_matcher_ := none }, false)
  else
    let st1 := { st with dimension_ := dimension }
    if metricSupported cfg.metricType cfg.distType then
      let pts := (List.range nbRows.toNat).map
        (fun i => querySlice dataset dimension.toNat i)
      ({ st1 with
          HNSW_metric_ := some (cfg, dimension),
          HNSW_matcher_ := some { points := pts, metricType := cfg.metricType, ef := 10 } },
        true)
    else
      (st1, false)

/-- Nonstrict lexicographic order on (distance, label) pairs: this is the
order of `std::pair` used by the result priority queue, so equal distances
compare by label. -/
def lexLe (a b : Nat × Nat) : Prop :=
  a.1 < b.1 ∨ (a.1 = b.1 ∧ a.2 ≤ b.2)

instance : DecidableRel lexLe := fun a b =>
  inferInstanceAs (Decidable (a.1 < b.1 ∨ (a.1 = b.1 ∧ a.2 ≤ b.2)))

instance : IsTotal (Nat × Nat) lexLe :=
  ⟨fun a b => by unfold lexLe; omega⟩

instance : IsTrans (Nat × Nat) lexLe :=
  ⟨fun a b c hab hbc => by unfold lexLe at *; omega⟩

/-- All (distance, label) pairs of a query against the stored points. -/
def candidates (idx : Index) (q : Desc) : List (Nat × Nat) :=
  (List.range idx.points.length).map
    (fun i => (distOf idx.metricType q (idx.points.getD i []), i))

/-- Modelled from the spec: `HierarchicalNSW::searchKnn(query, k)` of the
external hnswlib library (only its wrapper is in the sources).  Per the
specification the engine retains the `efSearch` best-so-far candidates
(breadth never below `k`) and returns the `k` closest among them, ties
broken by lower database id.  The value is the ascending
(distance, label) list; the C++ max-heap pops it back to front. -/
def searchKnn (idx : Index) (q : Desc) (k : Nat) : List (Nat × Nat) :=
  (((List.insertionSort lexLe (candidates idx q)).take (max idx.ef k)).take k)

/-- `HNSWMatcher::SearchNeighbour(query, indice, distance)`.
Takes the current values of the two out-parameters and returns
(new state, indice, distance, bool result).  A null index returns `false`
and writes nothing; otherwise `setEf(16)`, a 1-NN search, and the heap top
is written through the pointers. -/
def SearchNeighbour (st : HNSWMatcher) (query : Desc)
    (indice : Nat) (distance : Nat) : HNSWMatcher × Nat × Nat × Bool :=
  match st.HNSW_matcher_ with
  | none => (st, indice, distance, false)
  | some idx0 =>
    let idx := { idx0 with ef := 16 }
    let result := searchKnn idx query 1
    let top := result.getD 0 (0, 0)
    ({ st with HNSW_matcher_ := some idx }, top.2, top.1, true)

/-- The `setEf` value of `SearchNeighbours`: 16 when `NN ≤ 2`, otherwise
`max(NN*2, nbQuery)`. -/
def setEfValue (NN nbQuery : Nat) : Nat :=
  if NN ≤ 2 then 16 else max (NN * 2) nbQuery

/-- The final contents of the block of the output vectors belonging to one
query: the `resize`d block contents overwritten from the back by the heap
pops (`result_id` runs from `NN - 1` downwards), so the ascending result
list occupies the last `asc.length` slots and the first
`NN - asc.length` slots keep the resized contents. -/
def blockWrite {α : Type} (init : List α) (asc : List α) (NN : Nat) : List α :=
  init.take (NN - asc.length) ++ asc

/-- `HNSWMatcher::SearchNeighbours(query, nbQuery, pvec_indices,
pvec_distances, NN)`.  Takes the current contents of the two out-vectors
and returns (new state, pvec_indices, pvec_distances, bool result).
A null index returns `false` and leaves the vectors alone; otherwise the
ef parameter is set, both vectors are resized to `nbQuery * NN`, and for
each query id the k-NN results are written into its block, entry
`(query_id, label)` into `pvec_indices` and the distance into
`pvec_distances`. -/
def SearchNeighbours (st : HNSWMatcher) (query : List Int) (nbQuery : Nat)
    (pvec_indices : List (Nat × Nat)) (pvec_distances : List Nat)
    (NN : Nat) : HNSWMatcher × List (Nat × Nat) × List Nat × Bool :=
  match st.HNSW_matcher_ with
  | none => (st, pvec_indices, pvec_distances, false)
  | some idx0 =>
    let idx := { idx0 with ef := setEfValue NN nbQuery }
    let ind0 := resize pvec_indices (nbQuery * NN) (0, 0)
    let dst0 := resize pvec_distances (nbQuery * NN) 0
    let inds := (List.range nbQuery).map (fun i =>
      let asc := searchKnn idx (querySlice query st.dimension_.toNat i) NN
      blockWrite ((ind0.drop (i * NN)).take NN)
        (asc.map (fun p => (i, p.2))) NN)
    let dsts := (List.range nbQuery).map (fun i =>
      let asc := searchKnn idx (querySlice query st.dimension_.toNat i) NN
      blockWrite ((dst0.drop (i * NN)).take NN)
        (asc.map (fun p => p.1)) NN)
    ({ st with HNSW_matcher_ := some idx }, inds.flatten, dsts.flatten, true)

/-- Block `i` of an output vector of `SearchNeighbours`. -/
def outBlock {α : Type} (out : List α) (NN i : Nat) : List α :=
  (out.drop (i * NN)).take NN

/-- The (database id, distance) result entries of query `i`, read back from
the two parallel output vectors. -/
def resultEntries (inds : List (Nat × Nat)) (dsts : List Nat)
    (NN i : Nat) : List (Nat × Nat) :=
  List.zipWith (fun p d => (p.2, d)) (outBlock inds NN i) (outBlock dsts NN i)

/-- The contents one query contributes to its own block when the output
vectors start empty: value-initialised padding followed by that query's
ascending (database id, distance) results — a function of the index and
that single query only. -/
def perQueryEntries (idx : Index) (q : Desc) (NN nbQuery : Nat) :
    List (Nat × Nat) :=
  List.replicate
      (NN - (searchKnn { idx with ef := setEfValue NN nbQuery } q NN).length)
      (0, 0)
    ++ (searchKnn { idx with ef := setEfValue NN nbQuery } q NN).map
        (fun p => (p.2, p.1))

/-- Ascending order on (database id, distance) result entries: by distance,
ties by database id. -/
def entryLe (a b : Nat × Nat) : Prop :=
  a.2 < b.2 ∨ (a.2 = b.2 ∧ a.1 ≤ b.1)

/-- A default-constructed `HNSWMatcher`: null pointers, indeterminate
`dimension_` (the C++ member is left uninitialised). -/
def initState (d : Int) : HNSWMatcher :=
  { dimension_ := d, HNSW_metric_ := none, HNSW_matcher_ := none }

/-- Example instantiation: squared L2 over integer descriptors (the
`HNSWMatcher<uint8_t, L2_Vectorized<int>>` line of openMVG). -/
def cfgL2I : Config := ⟨.L2_HNSW, .dtInt⟩

/-- An unsupported instantiation: L1 metric with a float result type
(`typeid(DistanceType) != typeid(int)`), rejected by the Build switch. -/
def cfgL1F : Config := ⟨.L1_HNSW, .dtFloat⟩

/-- A facade built over the 1-dimensional dataset of rows [0], [3], [5]. -/
def builtSt : HNSWMatcher := (Build cfgL2I (initState 0) [0, 3, 5] 3 1).1

/-- A facade built over the singleton 1-dimensional dataset [5]. -/
def builtOne : HNSWMatcher := (Build cfgL2I (initState 0) [5] 1 1).1

/-! ### Structural lemmas about the embedding -/

theorem candidates_length (idx : Index) (q : Desc) :
    (candidates idx q).length = idx.points.length := by
  simp [candidates]

theorem searchKnn_length (idx : Index) (q : Desc) (k : Nat) :
    (searchKnn idx q k).length = min k idx.points.length := by
  simp only [searchKnn, List.length_take, List.length_insertionSort,
    candidates_length]
  omega

theorem searchKnn_sorted (idx : Index) (q : Desc) (k : Nat) :
    List.Pairwise lexLe (searchKnn idx q k) :=
  List.Pairwise.sublist
    ((List.take_sublist _ _).trans (List.take_sublist _ _))
    (List.sorted_insertionSort lexLe (candidates idx q))

theorem searchKnn_eq_take (idx : Index) (q : Desc) (k : Nat) :
    searchKnn idx q k
      = (List.insertionSort lexLe (candidates idx q)).take k := by
  rw [searchKnn, List.take_take, min_eq_left (le_max_right _ _)]

theorem searchKnn_ef_irrel (pts : List Desc) (mt : HNSWMETRIC)
    (e e' : Nat) (q : Desc) (k : Nat) :
    searchKnn ⟨pts, mt, e⟩ q k = searchKnn ⟨pts, mt, e'⟩ q k := by
  rw [searchKnn_eq_take, searchKnn_eq_take]
  rfl

theorem resize_length {α : Type} (v : List α) (m : Nat) (d : α) :
    (resize v m d).length = m := by
  simp [resize]
  omega

theorem blockWrite_length {α : Type} (init asc : List α) (NN : Nat)
    (h1 : init.length = NN) (h2 : asc.length ≤ NN) :
    (blockWrite init asc NN).length = NN := by
  simp [blockWrite, h1]
  omega

theorem resize_slice_length {α : Type} (v : List α) (nb NN i : Nat)
    (d : α) (hi : i < nb) :
    (((resize v (nb * NN) d).drop (i * NN)).take NN).length = NN := by
  have h2 : (i + 1) * NN ≤ nb * NN := Nat.mul_le_mul_right _ hi
  have h3 : (i + 1) * NN = i * NN + NN := by ring
  simp only [List.length_take, List.length_drop, resize_length]
  omega

theorem flatten_outBlock {α : Type} (NN : Nat) :
    ∀ (L : List (List α)), (∀ b ∈ L, b.length = NN) →
      ∀ i, i < L.length → outBlock L.flatten NN i = L.getD i [] := by
  intro L
  induction L with
  | nil =>
    intro _ i hi
    simp at hi
  | cons b L ih =>
    intro hlen i hi
    cases i with
    | zero =>
      have hb : b.length = NN := hlen b (by simp)
      simp only [outBlock, List.flatten_cons, Nat.zero_mul, List.drop_zero,
        List.getD_cons_zero]
      rw [← hb]
      exact List.take_left b L.flatten
    | succ j =>
      have hb : b.length = NN := hlen b (by simp)
      have harith : (j + 1) * NN = b.length + j * NN := by rw [hb]; ring
      simp only [outBlock, List.flatten_cons, List.getD_cons_succ]
      rw [harith, List.drop_append]
      exact ih (fun c hc => hlen c (by simp [hc])) j (by simpa using hi)

theorem getD_map_range {α : Type} (n : Nat) (f : Nat → List α)
    (i : Nat) (hi : i < n) :
    (((List.range n).map f).getD i []) = f i := by
  rw [List.getD_eq_getElem?_getD, List.getElem?_map, List.getElem?_range hi]
  rfl

theorem SearchNeighbours_state (st : HNSWMatcher) (idx : Index)
    (h : st.HNSW_matcher_ = some idx) (query : List Int) (nbQuery : Nat)
    (pin : List (Nat × Nat)) (pdst : List Nat) (NN : Nat) :
    (SearchNeighbours st query nbQuery pin pdst NN).1
      = { st with
          HNSW_matcher_ := some { idx with ef := setEfValue NN nbQuery } } := by
  simp only [SearchNeighbours, h]

theorem SearchNeighbours_flag (st : HNSWMatcher) (idx : Index)
    (h : st.HNSW_matcher_ = some idx) (query : List Int) (nbQuery : Nat)
    (pin : List (Nat × Nat)) (pdst : List Nat) (NN : Nat) :
    (SearchNeighbours st query nbQuery pin pdst NN).2.2.2 = true := by
  simp only [SearchNeighbours, h]

theorem SearchNeighbours_inds_block (st : HNSWMatcher) (idx : Index)
    (h : st.HNSW_matcher_ = some idx) (query : List Int) (nbQuery : Nat)
    (pin : List (Nat × Nat)) (pdst : List Nat) (NN i : Nat)
    (hi : i < nbQuery) :
    outBlock (SearchNeighbours st query nbQuery pin pdst NN).2.1 NN i
      = blockWrite
          (((resize pin (nbQuery * NN) (0, 0)).drop (i * NN)).take NN)
          ((searchKnn { idx with ef := setEfValue NN nbQuery }
              (querySlice query st.dimension_.toNat i) NN).map
            (fun p => (i, p.2))) NN := by
  simp only [SearchNeighbours, h]
  rw [flatten_outBlock NN _ ?_ i (by simpa using hi)]
  · rw [getD_map_range _ _ i hi]
  · intro b hb
    rcases List.mem_map.mp hb with ⟨j, hjmem, rfl⟩
    have hj : j < nbQuery := List.mem_range.mp hjmem
    refine blockWrite_length _ _ _ (resize_slice_length _ _ _ _ _ hj) ?_
    rw [List.length_map, searchKnn_length]
    exact min_le_left _ _

theorem SearchNeighbours_dsts_block (st : HNSWMatcher) (idx : Index)
    (h : st.HNSW_matcher_ = some idx) (query : List Int) (nbQuery : Nat)
    (pin : List (Nat × Nat)) (pdst : List Nat) (NN i : Nat)
    (hi : i < nbQuery) :
    outBlock (SearchNeighbours st query nbQuery pin pdst NN).2.2.1 NN i
      = blockWrite
          (((resize pdst (nbQuery * NN) 0).drop (i * NN)).take NN)
          ((searchKnn { idx with ef := setEfValue NN nbQuery }
              (querySlice query st.dimension_.toNat i) NN).map
            (fun p => p.1)) NN := by
  simp only [SearchNeighbours, h]
  rw [flatten_outBlock NN _ ?_ i (by simpa using hi)]
  · rw [getD_map_range _ _ i hi]
  · intro b hb
    rcases List.mem_map.mp hb with ⟨j, hjmem, rfl⟩
    have hj : j < nbQuery := List.mem_range.mp hjmem
    refine blockWrite_length _ _ _ (resize_slice_length _ _ _ _ _ hj) ?_
    rw [List.length_map, searchKnn_length]
    exact min_le_left _ _

theorem SearchNeighbour_some (st : HNSWMatcher) (idx : Index)
    (h : st.HNSW_matcher_ = some idx) (q : Desc) (ind dst : Nat) :
    SearchNeighbour st q ind dst
      = ({ st with HNSW_matcher_ := some { idx with ef := 16 } },
         ((searchKnn { idx with ef := 16 } q 1).getD 0 (0, 0)).2,
         ((searchKnn { idx with ef := 16 } q 1).getD 0 (0, 0)).1, true) := by
  simp only [SearchNeighbour, h]

theorem zipWith_replicate_same {α β γ : Type} (f : α → β → γ) (n : Nat)
    (a : α) (b : β) :
    List.zipWith f (List.replicate n a) (List.replicate n b)
      = List.replicate n (f a b) := by
  induction n with
  | zero => rfl
  | succ m ih => simp [List.replicate_succ, ih]

theorem resultEntries_eq_perQuery (st : HNSWMatcher) (idx : Index)
    (h : st.HNSW_matcher_ = some idx) (query : List Int)
    (nbQuery NN i : Nat) (hi : i < nbQuery) :
    resultEntries (SearchNeighbours st query nbQuery [] [] NN).2.1
        (SearchNeighbours st query nbQuery [] [] NN).2.2.1 NN i
      = perQueryEntries idx (querySlice query st.dimension_.toNat i) NN
          nbQuery := by
  have hmul : NN + i * NN ≤ nbQuery * NN := by
    have h2 : (i + 1) * NN ≤ nbQuery * NN := Nat.mul_le_mul_right _ hi
    have h3 : (i + 1) * NN = i * NN + NN := by ring
    omega
  have hL : (searchKnn { idx with ef := setEfValue NN nbQuery }
      (querySlice query st.dimension_.toNat i) NN).length ≤ NN := by
    rw [searchKnn_length]
    exact min_le_left _ _
  have hind : ((resize ([] : List (Nat × Nat)) (nbQuery * NN) (0, 0)).drop
        (i * NN)).take NN
      = List.replicate NN ((0, 0) : Nat × Nat) := by
    simp only [resize, List.take_nil, List.nil_append, List.length_nil,
      Nat.sub_zero, List.drop_replicate, List.take_replicate]
    congr 1
    omega
  have hdst : ((resize ([] : List Nat) (nbQuery * NN) 0).drop
        (i * NN)).take NN
      = List.replicate NN (0 : Nat) := by
    simp only [resize, List.take_nil, List.nil_append, List.length_nil,
      Nat.sub_zero, List.drop_replicate, List.take_replicate]
    congr 1
    omega
  rw [resultEntries,
    SearchNeighbours_inds_block st idx h query nbQuery [] [] NN i hi,
    SearchNeighbours_dsts_block st idx h query nbQuery [] [] NN i hi,
    hind, hdst, blockWrite, blockWrite, List.length_map, List.length_map,
    List.take_replicate, List.take_replicate,
    show (NN - (searchKnn { idx with ef := setEfValue NN nbQuery }
        (querySlice query st.dimension_.toNat i) NN).length) ⊓ NN
      = NN - (searchKnn { idx with ef := setEfValue NN nbQuery }
        (querySlice query st.dimension_.toNat i) NN).length by omega,
    List.zipWith_append _ _ _ _ _ (by simp), zipWith_replicate_same,
    List.zipWith_map, List.zipWith_same]
  rfl

theorem perQueryEntries_sorted (idx : Index) (q : Desc)
    (NN nbQuery : Nat) :
    List.Pairwise entryLe (perQueryEntries idx q NN nbQuery) := by
  unfold perQueryEntries
  rw [List.pairwise_append]
  refine ⟨?_, ?_, ?_⟩
  · rw [List.pairwise_replicate]
    right
    unfold entryLe
    omega
  · exact List.Pairwise.map (R := lexLe) (S := entryLe)
      (fun p => (p.2, p.1)) (fun a b hab => hab) (searchKnn_sorted _ _ _)
  · intro a ha b hb
    have ha0 : a = (0, 0) := List.eq_of_mem_replicate ha
    subst ha0
    unfold entryLe
    omega

/-! ### Claim theorems -/

/-- Claim C5: when no index is owned (`HNSW_matcher_` is null), both
`SearchNeighbour` and `SearchNeighbours` return `false` and leave their
out-parameters untouched, rather than returning an empty result. -/
theorem C5_unbuilt_queries_fail (st : HNSWMatcher)
    (h : st.HNSW_matcher_ = none) (q : Desc) (ind dst : Nat)
    (query : List Int) (nbQuery : Nat) (pin : List (Nat × Nat))
    (pdst : List Nat) (NN : Nat) :
    SearchNeighbour st q ind dst = (st, ind, dst, false)
      ∧ SearchNeighbours st query nbQuery pin pdst NN
          = (st, pin, pdst, false) := by
  constructor <;> simp only [SearchNeighbour, SearchNeighbours, h]

/-- Witness for C5 on a never-built facade with pre-filled out-params. -/
theorem C5_unbuilt_queries_fail_witness :
    SearchNeighbour (initState 0) [3] 5 7 = (initState 0, 5, 7, false)
      ∧ SearchNeighbours (initState 0) [3] 1 [(1, 2)] [4] 2
          = (initState 0, [(1, 2)], [4], false) :=
  C5_unbuilt_queries_fail (initState 0) rfl [3] 5 7 [3] 1 [(1, 2)] [4] 2

/-- Claim C6: a `Build` on an empty dataset returns `false` and resets both
pointers (no usable index remains), and a `Build` whose
metric/representation combination is unsupported returns `false` with the
index pointer unchanged — no new graph is created, so no point is ever
inserted. -/
theorem C6_build_failure_modes (cfg : Config) (st : HNSWMatcher)
    (dataset : List Int) (nbRows dimension : Int) :
    (nbRows < 1 →
        Build cfg st dataset nbRows dimension
          = ({ st with HNSW_metric_ := none, HNSW_matcher_ := none }, false))
      ∧ (¬ nbRows < 1 → metricSupported cfg.metricType cfg.distType = false →
          (Build cfg st dataset nbRows dimension).2 = false
            ∧ (Build cfg st dataset nbRows dimension).1.HNSW_matcher_
                = st.HNSW_matcher_) := by
  refine ⟨fun h1 => ?_, fun h1 h2 => ?_⟩
  · simp [Build, h1]
  · simp [Build, h1, h2]

/-- Witness for C6: empty build on a built facade, and an unsupported
configuration on a built facade. -/
theorem C6_build_failure_modes_witness :
    (Build cfgL2I builtOne [] 0 1
        = ({ builtOne with HNSW_metric_ := none, HNSW_matcher_ := none },
           false))
      ∧ ((Build cfgL1F builtOne [7] 1 9).2 = false
          ∧ (Build cfgL1F builtOne [7] 1 9).1.HNSW_matcher_
              = builtOne.HNSW_matcher_) :=
  ⟨(C6_build_failure_modes cfgL2I builtOne [] 0 1).1 (by decide),
   (C6_build_failure_modes cfgL1F builtOne [7] 1 9).2 (by decide) (by decide)⟩

/-- Claim C9: a `Build` that fails on an unsupported metric/representation
combination (with a non-empty dataset) leaves the metric-space and index
pointers untouched but still overwrites `dimension_` with the new
dimension argument. -/
theorem C9_mismatch_overwrites_dimension (cfg : Config) (st : HNSWMatcher)
    (dataset : List Int) (nbRows dimension : Int)
    (h1 : 1 ≤ nbRows)
    (h2 : metricSupported cfg.metricType cfg.distType = false) :
    (Build cfg st dataset nbRows dimension).2 = false
      ∧ (Build cfg st dataset nbRows dimension).1.HNSW_matcher_
          = st.HNSW_matcher_
      ∧ (Build cfg st dataset nbRows dimension).1.HNSW_metric_
          = st.HNSW_metric_
      ∧ (Build cfg st dataset nbRows dimension).1.dimension_ = dimension := by
  have h1' : ¬ nbRows < 1 := by omega
  simp [Build, h1', h2]

/-- Witness for C9: the facade built with dimension 1 keeps its index after
a failed rebuild with dimension 9, but its stored dimension becomes 9. -/
theorem C9_mismatch_overwrites_dimension_witness :
    ((Build cfgL1F builtOne [7] 1 9).2 = false
      ∧ (Build cfgL1F builtOne [7] 1 9).1.HNSW_matcher_
          = builtOne.HNSW_matcher_
      ∧ (Build cfgL1F builtOne [7] 1 9).1.HNSW_metric_
          = builtOne.HNSW_metric_
      ∧ (Build cfgL1F builtOne [7] 1 9).1.dimension_ = 9)
      ∧ builtOne.dimension_ = 1 :=
  ⟨C9_mismatch_overwrites_dimension cfgL1F builtOne [7] 1 9 (by decide)
      (by decide),
   by decide⟩

/-- Counterexample to claim C2 as stated: a facade that owns an index built
from the singleton dataset [5] loses that index when a later `Build` with
an empty dataset fails — the failed build does not preserve the prior
state. -/
theorem C2_counterexample_empty_build_destroys_index :
    (Build cfgL2I builtOne [] 0 1).2 = false
      ∧ builtOne.HNSW_matcher_ ≠ none
      ∧ (Build cfgL2I builtOne [] 0 1).1.HNSW_matcher_ = none := by
  decide

/-- Claim C2 amended: a `Build` failing on an unsupported
metric/representation combination preserves the previously owned index and
metric space (only `dimension_` is overwritten), but a `Build` failing on
an empty dataset (`nbRows < 1`) resets both the metric space and the index
to null, leaving the facade unready regardless of its prior state. -/
theorem C2_amended_failed_build_state (cfg : Config) (st : HNSWMatcher)
    (dataset : List Int) (nbRows dimension : Int) :
    (nbRows < 1 →
        (Build cfg st dataset nbRows dimension).2 = false
          ∧ (Build cfg st dataset nbRows dimension).1.HNSW_matcher_ = none
          ∧ (Build cfg st dataset nbRows dimension).1.HNSW_metric_ = none
          ∧ (Build cfg st dataset nbRows dimension).1.dimension_
              = st.dimension_)
      ∧ (1 ≤ nbRows → metricSupported cfg.metricType cfg.distType = false →
          (Build cfg st dataset nbRows dimension).2 = false
            ∧ (Build cfg st dataset nbRows dimension).1.HNSW_matcher_
                = st.HNSW_matcher_
            ∧ (Build cfg st dataset nbRows dimension).1.HNSW_metric_
                = st.HNSW_metric_) := by
  refine ⟨fun h1 => ?_, fun h1 h2 => ?_⟩
  · simp [Build, h1]
  · have h1' : ¬ nbRows < 1 := by omega
    simp [Build, h1', h2]

/-- Witness for the amended C2 at both failure modes. -/
theorem C2_amended_failed_build_state_witness :
    ((Build cfgL2I builtOne [] 0 1).2 = false
       ∧ (Build cfgL2I builtOne [] 0 1).1.HNSW_matcher_ = none
       ∧ (Build cfgL2I builtOne [] 0 1).1.HNSW_metric_ = none
       ∧ (Build cfgL2I builtOne [] 0 1).1.dimension_ = builtOne.dimension_)
      ∧ ((Build cfgL1F builtOne [7] 1 9).2 = false
       ∧ (Build cfgL1F builtOne [7] 1 9).1.HNSW_matcher_
           = builtOne.HNSW_matcher_
       ∧ (Build cfgL1F builtOne [7] 1 9).1.HNSW_metric_
           = builtOne.HNSW_metric_) :=
  ⟨(C2_amended_failed_build_state cfgL2I builtOne [] 0 1).1 (by decide),
   (C2_amended_failed_build_state cfgL1F builtOne [7] 1 9).2 (by decide)
     (by decide)⟩

/-- Counterexample to claim C3 as stated: `Build` with dimension 0 on a
non-empty dataset does not return a configuration error — it returns
`true` and installs an index. -/
theorem C3_counterexample_dimension_zero_accepted :
    (Build cfgL2I (initState 0) [5] 1 0).2 = true
      ∧ (Build cfgL2I (initState 0) [5] 1 0).1.HNSW_matcher_ ≠ none := by
  decide

/-- Claim C3 amended: `Build` performs no validation of the dimension
argument at all: for every dimension (including 0 and negative values), a
non-empty dataset under a supported metric/representation combination
builds successfully and installs an index. -/
theorem C3_amended_no_dimension_check (cfg : Config) (st : HNSWMatcher)
    (dataset : List Int) (nbRows dimension : Int)
    (h1 : 1 ≤ nbRows)
    (h2 : metricSupported cfg.metricType cfg.distType = true) :
    (Build cfg st dataset nbRows dimension).2 = true
      ∧ (Build cfg st dataset nbRows dimension).1.HNSW_matcher_ ≠ none := by
  have h1' : ¬ nbRows < 1 := by omega
  simp [Build, h1', h2]

/-- Witness for the amended C3 at dimension 0. -/
theorem C3_amended_no_dimension_check_witness :
    (Build cfgL2I (initState 0) [5] 1 0).2 = true
      ∧ (Build cfgL2I (initState 0) [5] 1 0).1.HNSW_matcher_ ≠ none :=
  C3_amended_no_dimension_check cfgL2I (initState 0) [5] 1 0 (by decide)
    (by decide)

/-- Counterexample to claim C1 as stated: on the facade built over the
singleton dataset [5] (datasetSize = 1), a batched search with NN = 2
produces a block of length 2, not min(2, 1) = 1. -/
theorem C1_counterexample_block_exceeds_dataset :
    (builtOne.HNSW_matcher_.map (fun idx => idx.points.length) = some 1)
      ∧ (resultEntries (SearchNeighbours builtOne [4] 1 [] [] 2).2.1
           (SearchNeighbours builtOne [4] 1 [] [] 2).2.2.1 2 0).length
          ≠ min 2 1 := by
  decide

/-- Claim C1 amended: each query's result block in the output has length
exactly NN, the requested neighbour count (the output vectors are resized
to nbQuery * NN); this equals min(NN, datasetSize) whenever
NN ≤ datasetSize, but when NN exceeds the dataset size the block keeps
length NN, only its last min(NN, datasetSize) entries being search
results. -/
theorem C1_amended_block_length (st : HNSWMatcher) (idx : Index)
    (h : st.HNSW_matcher_ = some idx) (query : List Int) (nbQuery : Nat)
    (pin : List (Nat × Nat)) (pdst : List Nat) (NN i : Nat)
    (hi : i < nbQuery) :
    (resultEntries (SearchNeighbours st query nbQuery pin pdst NN).2.1
        (SearchNeighbours st query nbQuery pin pdst NN).2.2.1 NN i).length
      = NN := by
  rw [resultEntries, List.length_zipWith,
    SearchNeighbours_inds_block st idx h query nbQuery pin pdst NN i hi,
    SearchNeighbours_dsts_block st idx h query nbQuery pin pdst NN i hi,
    blockWrite_length _ _ _ (resize_slice_length _ _ _ _ _ hi)
      (by rw [List.length_map, searchKnn_length]; exact min_le_left _ _),
    blockWrite_length _ _ _ (resize_slice_length _ _ _ _ _ hi)
      (by rw [List.length_map, searchKnn_length]; exact min_le_left _ _)]
  exact min_self NN

/-- Witness for the amended C1 on the three-point facade, two queries. -/
theorem C1_amended_block_length_witness :
    (resultEntries (SearchNeighbours builtSt [4, 0] 2 [] [] 2).2.1
        (SearchNeighbours builtSt [4, 0] 2 [] [] 2).2.2.1 2 0).length
      = 2 :=
  C1_amended_block_length builtSt ⟨[[0], [3], [5]], .L2_HNSW, 10⟩ rfl
    [4, 0] 2 [] [] 2 0 (by decide)

/-- Claim C4: for every query on a built index (fresh output vectors), the
(database id, distance) entries of each query's block are sorted
ascending by distance, entries of equal distance ascending by database
id. -/
theorem C4_results_sorted (st : HNSWMatcher) (idx : Index)
    (h : st.HNSW_matcher_ = some idx) (query : List Int)
    (nbQuery NN i : Nat) (hi : i < nbQuery) :
    List.Pairwise entryLe
      (resultEntries (SearchNeighbours st query nbQuery [] [] NN).2.1
        (SearchNeighbours st query nbQuery [] [] NN).2.2.1 NN i) := by
  rw [resultEntries_eq_perQuery st idx h query nbQuery NN i hi]
  exact perQueryEntries_sorted idx _ NN nbQuery

/-- Witness for C4 on the three-point facade with NN = 5 > datasetSize. -/
theorem C4_results_sorted_witness :
    List.Pairwise entryLe
      (resultEntries (SearchNeighbours builtSt [4] 1 [] [] 5).2.1
        (SearchNeighbours builtSt [4] 1 [] [] 5).2.2.1 5 0) :=
  C4_results_sorted builtSt ⟨[[0], [3], [5]], .L2_HNSW, 10⟩ rfl [4] 1 5 0
    (by decide)

/-- Counterexample to claim C7 as stated: the breadth actually installed by
SearchNeighbours is 6 for (NN = 3, nbQuery = 1) and 8 for
(NN = 4, nbQuery = 1), which no single configured minimum floor c can
produce as max(NN, c) — the engine uses 16 for NN ≤ 2 and
max(2 * NN, nbQuery) otherwise, not max(NN, floor). -/
theorem C7_counterexample_ef_not_max_with_floor :
    ((SearchNeighbours builtSt [4] 1 [] [] 3).1.HNSW_matcher_.map Index.ef
        = some 6)
      ∧ ((SearchNeighbours builtSt [4] 1 [] [] 4).1.HNSW_matcher_.map
          Index.ef = some 8)
      ∧ ¬ ∃ c : Nat, max 3 c = 6 ∧ max 4 c = 8 := by
  refine ⟨by decide, by decide, ?_⟩
  rintro ⟨c, h1, h2⟩
  omega

/-- Claim C7 amended: the search breadth SearchNeighbours installs is 16
when NN ≤ 2 and max(2 * NN, nbQuery) otherwise; in every case it is at
least NN. -/
theorem C7_amended_ef_at_least_k (st : HNSWMatcher) (idx : Index)
    (h : st.HNSW_matcher_ = some idx) (query : List Int) (nbQuery : Nat)
    (pin : List (Nat × Nat)) (pdst : List Nat) (NN : Nat) :
    (SearchNeighbours st query nbQuery pin pdst NN).1.HNSW_matcher_.map
        Index.ef = some (setEfValue NN nbQuery)
      ∧ NN ≤ setEfValue NN nbQuery := by
  rw [SearchNeighbours_state st idx h]
  refine ⟨rfl, ?_⟩
  unfold setEfValue
  split <;> omega

/-- Witness for the amended C7 at NN = 3, nbQuery = 1. -/
theorem C7_amended_ef_at_least_k_witness :
    (SearchNeighbours builtSt [4] 1 [] [] 3).1.HNSW_matcher_.map Index.ef
        = some (setEfValue 3 1)
      ∧ 3 ≤ setEfValue 3 1 :=
  C7_amended_ef_at_least_k builtSt ⟨[[0], [3], [5]], .L2_HNSW, 10⟩ rfl
    [4] 1 [] [] 3

/-- Claim C8: batched results are placed by query position — block i of
the output is a function of the index and query i alone — and on a built
non-empty index the first block of a two-query batch with NN = 1 is
exactly the (database id, distance) pair SearchNeighbour returns for the
first query. -/
theorem C8_batch_order (st : HNSWMatcher) (idx : Index)
    (h : st.HNSW_matcher_ = some idx) (query : List Int)
    (nbQuery NN : Nat) (q0 q1 : Desc)
    (hq : q0.length = st.dimension_.toNat) (hn : idx.points ≠ []) :
    (∀ i, i < nbQuery →
        resultEntries (SearchNeighbours st query nbQuery [] [] NN).2.1
            (SearchNeighbours st query nbQuery [] [] NN).2.2.1 NN i
          = perQueryEntries idx (querySlice query st.dimension_.toNat i)
              NN nbQuery)
      ∧ resultEntries (SearchNeighbours st (q0 ++ q1) 2 [] [] 1).2.1
            (SearchNeighbours st (q0 ++ q1) 2 [] [] 1).2.2.1 1 0
          = [((SearchNeighbour st q0 0 0).2.1,
              (SearchNeighbour st q0 0 0).2.2.1)] := by
  refine ⟨fun i hi =>
    resultEntries_eq_perQuery st idx h query nbQuery NN i hi, ?_⟩
  rw [resultEntries_eq_perQuery st idx h (q0 ++ q1) 2 1 0 (by omega)]
  have hslice : querySlice (q0 ++ q1) st.dimension_.toNat 0 = q0 := by
    rw [querySlice, Nat.mul_zero, List.drop_zero, ← hq, List.take_left]
  rw [SearchNeighbour_some st idx h, hslice]
  unfold perQueryEntries
  rw [show setEfValue 1 2 = 16 from rfl]
  have hnz : idx.points.length ≠ 0 := fun hc => hn (List.length_eq_zero.mp hc)
  have hlen : (searchKnn { idx with ef := 16 } q0 1).length = 1 := by
    rw [searchKnn_length]
    show min 1 idx.points.length = 1
    omega
  obtain ⟨a, ha⟩ := List.length_eq_one.mp hlen
  rw [ha]
  rfl

/-- Witness for C8: on the three-point facade,
SearchNeighbours([4] ++ [0], NN = 1) block 0 equals SearchNeighbour([4]). -/
theorem C8_batch_order_witness :
    resultEntries
        (SearchNeighbours builtSt ([4] ++ [0]) 2 [] [] 1).2.1
        (SearchNeighbours builtSt ([4] ++ [0]) 2 [] [] 1).2.2.1 1 0
      = [((SearchNeighbour builtSt [4] 0 0).2.1,
          (SearchNeighbour builtSt [4] 0 0).2.2.1)] :=
  (C8_batch_order builtSt ⟨[[0], [3], [5]], .L2_HNSW, 10⟩ rfl [4, 0] 2 1
    [4] [0] rfl (by decide)).2

/-- Claim C10: SearchNeighbour installs breadth 16 before every search, so
its returned (indice, distance, flag) triple on a built index does not
depend on the breadth an interleaved SearchNeighbours call left behind
(nor on the prior values of its out-parameters). -/
theorem C10_searchNeighbour_ef_independent (st : HNSWMatcher)
    (idx : Index) (h : st.HNSW_matcher_ = some idx) (q : Desc)
    (ind dst ind' dst' : Nat) (query : List Int) (nbQuery : Nat)
    (pin : List (Nat × Nat)) (pdst : List Nat) (NN : Nat) :
    (SearchNeighbour (SearchNeighbours st query nbQuery pin pdst NN).1
        q ind dst).2 = (SearchNeighbour st q ind' dst').2
      ∧ (SearchNeighbour st q ind' dst').1.HNSW_matcher_.map Index.ef
          = some 16 := by
  have hB : (SearchNeighbours st query nbQuery pin pdst NN).1.HNSW_matcher_
      = some { idx with ef := setEfValue NN nbQuery } := by
    rw [SearchNeighbours_state st idx h]
  rw [SearchNeighbour_some _ _ hB, SearchNeighbour_some st idx h]
  exact ⟨rfl, rfl⟩

/-- Witness for C10 on the three-point facade, after a batch that set the
breadth to max(2 * 5, 1) = 10. -/
theorem C10_searchNeighbour_ef_independent_witness :
    (SearchNeighbour (SearchNeighbours builtSt [4] 1 [] [] 5).1
        [4] 0 0).2 = (SearchNeighbour builtSt [4] 9 9).2
      ∧ (SearchNeighbour builtSt [4] 9 9).1.HNSW_matcher_.map Index.ef
          = some 16 :=
  C10_searchNeighbour_ef_independent builtSt ⟨[[0], [3], [5]], .L2_HNSW, 10⟩
    rfl [4] 0 0 9 9 [4] 1 [] [] 5

end HNSW
